import Mathlib

/-!
# Verification of the reconnecting real-time channel (`WebSocketService`)

Shallow embedding of the `WebSocketService` class from `src/unnamed/part_003`
of the repository. The mutable instance state becomes an explicit state
record; callback registrations are modelled by handler identifiers (distinct
function objects get distinct identifiers, reference equality becomes
identifier equality); browser timers (the 5-second connection timeout and the
scheduled reconnect) become explicit armed/pending fields together with
events that fire them; observable side effects (transport instances created,
messages written to the transport, invocations of registered handlers,
console logging) are recorded in instrumentation fields that the logic never
reads.

Transport events (`open`, `message`, `error`, `close`) and caller actions
(`connect`, `disconnect`, `send`, subscribe/unsubscribe) are gathered in one
event type with a total step function, giving a reachability predicate over
runs from a freshly constructed service.
-/

namespace WS

/-- Browser `WebSocket.readyState` values. -/
inductive ReadyState
  | CONNECTING
  | OPEN
  | CLOSING
  | CLOSED
deriving DecidableEq

/-- `WebSocketStatus` union type from the source. -/
inductive WebSocketStatus
  | connecting
  | connected
  | disconnected
  | error
deriving DecidableEq

/-- `WebSocketMessage` interface: `type` required, `data` and `timestamp`
optional; the `unknown` payload is kept opaque as a string. -/
structure WebSocketMessage where
  type : String
  data : Option String := none
  timestamp : Option Nat := none
deriving DecidableEq

/-- A registered callback, identified the way JavaScript compares functions:
by reference. Distinct function objects receive distinct identifiers. -/
abbrev HandlerId := Nat

/-- `maxReconnectAttempts = 5` in the source. -/
def maxReconnectAttempts : Nat := 5

/-- `reconnectDelay = 1000` (milliseconds) in the source. -/
def reconnectDelay : Nat := 1000

/-- The 5000 ms connection timeout armed in `connect()`. -/
def connectionTimeoutMs : Nat := 5000

/-- The state of one `WebSocketService` instance.

Fields up to `statusChangeHandlers` mirror the class's private fields
(`socket` keeps only the `readyState`, the part the code reads).
`timeoutArmed` models the pending `connectionTimeout` timer,
`pendingReconnects` the delays of reconnect timers scheduled by
`attemptReconnect` and not yet fired (in scheduling order). The remaining
fields are write-only instrumentation: transports constructed, messages
written to the transport socket, handler invocations, console log calls. -/
structure WebSocketService where
  socket : Option ReadyState := none
  reconnectAttempts : Nat := 0
  status : WebSocketStatus := .disconnected
  messageHandlers : List HandlerId := []
  errorHandlers : List HandlerId := []
  statusChangeHandlers : List HandlerId := []
  timeoutArmed : Bool := false
  socketsCreated : Nat := 0
  pendingReconnects : List Nat := []
  statusTrace : List WebSocketStatus := []
  deliveredMessages : List (HandlerId × WebSocketMessage) := []
  deliveredErrors : List HandlerId := []
  deliveredStatuses : List (HandlerId × WebSocketStatus) := []
  sent : List WebSocketMessage := []
  logs : Nat := 0
deriving DecidableEq

/-- A freshly constructed service (`new WebSocketService(...)`). -/
def initService : WebSocketService := {}

/-- `private setStatus(status)`: update `this.status` and notify the
status-change handlers only when the value actually changes. -/
def setStatus (s : WebSocketService) (st : WebSocketStatus) : WebSocketService :=
  if s.status ≠ st then
    { s with
      status := st
      statusTrace := s.statusTrace ++ [st]
      deliveredStatuses :=
        s.deliveredStatuses ++ s.statusChangeHandlers.map (fun h => (h, st)) }
  else s

/-- `connect()`. Returns early if the socket is already `OPEN` or
`CONNECTING`; otherwise sets status to `connecting` and constructs a new
`WebSocket` (arming the 5 s connection timeout). `ctorOk = false` models the
`new WebSocket(...)` constructor throwing, handled by the `catch` branch
(status `error`, error handlers notified). -/
def connect (ctorOk : Bool) (s : WebSocketService) : WebSocketService :=
  if s.socket = some .OPEN then s
  else if s.socket = some .CONNECTING then s
  else if ctorOk then
    { setStatus s .connecting with
      socket := some .CONNECTING
      socketsCreated := s.socketsCreated + 1
      timeoutArmed := true }
  else
    { setStatus (setStatus s .connecting) .error with
      deliveredErrors := s.deliveredErrors ++ s.errorHandlers }

/-- The `connectionTimeout` callback firing after 5 s: if the socket exists
and is not `OPEN`, close it, set status `disconnected` and exhaust the retry
counter. Firing consumes the timer. -/
def timeoutFire (s : WebSocketService) : WebSocketService :=
  if s.timeoutArmed then
    match s.socket with
    | some rs =>
      if rs ≠ .OPEN then
        { setStatus { s with timeoutArmed := false, socket := some .CLOSING }
            .disconnected with
          reconnectAttempts := maxReconnectAttempts }
      else { s with timeoutArmed := false }
    | none => { s with timeoutArmed := false }
  else s

/-- The `onopen` handler (the transport reaches the open state): clear the
connection timeout, set status `connected`, reset the retry counter. Only a
`CONNECTING` socket can fire `open`. -/
def openEv (s : WebSocketService) : WebSocketService :=
  if s.socket = some .CONNECTING then
    { setStatus { s with socket := some .OPEN, timeoutArmed := false }
        .connected with
      reconnectAttempts := 0 }
  else s

/-- The `onmessage` handler on an open socket. `parsed` is the outcome of
`JSON.parse(event.data)`: `some m` on success (the message is dispatched to
every registered message handler), `none` when parsing throws (the `catch`
branch logs via `console.error` and nothing else happens). -/
def messageEv (parsed : Option WebSocketMessage) (s : WebSocketService) :
    WebSocketService :=
  if s.socket = some .OPEN then
    match parsed with
    | some m =>
      { s with
        deliveredMessages :=
          s.deliveredMessages ++ s.messageHandlers.map (fun h => (h, m)) }
    | none => { s with logs := s.logs + 1 }
  else s

/-- The `onerror` handler. Per the browser model the connection has failed
(readyState `CLOSED`) by the time `error` fires; the handler clears the
connection timeout, sets status `error` and notifies the error handlers with
a synthesized diagnostic. -/
def errorEv (s : WebSocketService) : WebSocketService :=
  match s.socket with
  | some _ =>
    { setStatus { s with socket := some .CLOSED, timeoutArmed := false }
        .error with
      deliveredErrors := s.deliveredErrors ++ s.errorHandlers }
  | none => s

/-- `private attemptReconnect()`: bail out at the bound, otherwise increment
the counter and schedule a reconnect timer after
`reconnectDelay * reconnectAttempts` (the counter after the increment). -/
def attemptReconnect (s : WebSocketService) : WebSocketService :=
  if s.reconnectAttempts ≥ maxReconnectAttempts then s
  else
    { s with
      reconnectAttempts := s.reconnectAttempts + 1
      pendingReconnects :=
        s.pendingReconnects ++ [reconnectDelay * (s.reconnectAttempts + 1)] }

/-- The `onclose` handler for a close event with code `code`: the socket is
now `CLOSED`, the connection timeout is cleared, status becomes
`disconnected`, a non-1000 code is logged (`console.warn`); then reconnect
is attempted only when the code is neither 1006 nor 1002 and the counter is
below the bound, otherwise the counter is forced to the bound (with an
informational log). None of the steps before the retry decision touches the
retry counter, so its condition reads `s.reconnectAttempts` directly. -/
def closeEv (code : Nat) (s : WebSocketService) : WebSocketService :=
  match s.socket with
  | some _ =>
    if code ≠ 1006 ∧ code ≠ 1002 ∧
        s.reconnectAttempts < maxReconnectAttempts then
      attemptReconnect
        { setStatus { s with socket := some .CLOSED, timeoutArmed := false }
            .disconnected with
          logs := if code ≠ 1000 then s.logs + 1 else s.logs }
    else
      { setStatus { s with socket := some .CLOSED, timeoutArmed := false }
          .disconnected with
        reconnectAttempts := maxReconnectAttempts
        logs := (if code ≠ 1000 then s.logs + 1 else s.logs) + 1 }
  | none => s

/-- A scheduled reconnect timer firing: the timer is consumed and its
callback runs `connect()` only if the status is still `disconnected`. -/
def reconnectFire (s : WebSocketService) : WebSocketService :=
  match s.pendingReconnects with
  | [] => s
  | _ :: rest =>
    if s.status = .disconnected then connect true { s with pendingReconnects := rest }
    else { s with pendingReconnects := rest }

/-- `disconnect()`: exhaust the retry counter, call `close()` on the socket
only when it is `OPEN` or `CONNECTING` (errors during close are swallowed,
and closing has no further effect on the service state), release the
reference (a `none` reference stays `none`), set status `disconnected`. -/
def disconnect (s : WebSocketService) : WebSocketService :=
  setStatus
    { s with reconnectAttempts := maxReconnectAttempts, socket := none }
    .disconnected

/-- `send(message)`: serialize and write to the transport when the socket is
`OPEN`, otherwise throw `"WebSocket is not connected"`. -/
def send (s : WebSocketService) (m : WebSocketMessage) :
    Except String WebSocketService :=
  if s.socket = some .OPEN then
    .ok { s with sent := s.sent ++ [m] }
  else
    .error "WebSocket is not connected"

/-- `getStatus()`. -/
def getStatus (s : WebSocketService) : WebSocketStatus := s.status

/-- `isConnected()`: `this.socket?.readyState === WebSocket.OPEN`. -/
def isConnected (s : WebSocketService) : Bool := s.socket = some ReadyState.OPEN

/-- `onMessage(handler)`: append the handler to the list. -/
def onMessage (h : HandlerId) (s : WebSocketService) : WebSocketService :=
  { s with messageHandlers := s.messageHandlers ++ [h] }

/-- The unsubscribe closure returned by `onMessage`:
`filter(x => x !== handler)`. -/
def unsubscribeMessage (h : HandlerId) (s : WebSocketService) :
    WebSocketService :=
  { s with messageHandlers := s.messageHandlers.filter (fun x => x ≠ h) }

/-- `onError(handler)`. -/
def onError (h : HandlerId) (s : WebSocketService) : WebSocketService :=
  { s with errorHandlers := s.errorHandlers ++ [h] }

/-- The unsubscribe closure returned by `onError`. -/
def unsubscribeError (h : HandlerId) (s : WebSocketService) :
    WebSocketService :=
  { s with errorHandlers := s.errorHandlers.filter (fun x => x ≠ h) }

/-- `onStatusChange(handler)`. -/
def onStatusChange (h : HandlerId) (s : WebSocketService) : WebSocketService :=
  { s with statusChangeHandlers := s.statusChangeHandlers ++ [h] }

/-- The unsubscribe closure returned by `onStatusChange`. -/
def unsubscribeStatusChange (h : HandlerId) (s : WebSocketService) :
    WebSocketService :=
  { s with statusChangeHandlers := s.statusChangeHandlers.filter (fun x => x ≠ h) }

/-- One event of a run: a caller action, a transport event delivered to the
handlers installed by `connect()`, or a timer firing. -/
inductive WSEvent
  | connectCall (ctorOk : Bool)
  | disconnectCall
  | sendCall (m : WebSocketMessage)
  | opened
  | message (parsed : Option WebSocketMessage)
  | errored
  | closed (code : Nat)
  | timeout
  | reconnectTimer
  | subMessage (h : HandlerId)
  | unsubMessage (h : HandlerId)
  | subError (h : HandlerId)
  | unsubError (h : HandlerId)
  | subStatus (h : HandlerId)
  | unsubStatus (h : HandlerId)
deriving DecidableEq

/-- Total step function of the channel. A thrown `send` leaves the state
unchanged in the caller. -/
def step (e : WSEvent) (s : WebSocketService) : WebSocketService :=
  match e with
  | .connectCall ok => connect ok s
  | .disconnectCall => disconnect s
  | .sendCall m =>
    match send s m with
    | .ok s' => s'
    | .error _ => s
  | .opened => openEv s
  | .message p => messageEv p s
  | .errored => errorEv s
  | .closed code => closeEv code s
  | .timeout => timeoutFire s
  | .reconnectTimer => reconnectFire s
  | .subMessage h => onMessage h s
  | .unsubMessage h => unsubscribeMessage h s
  | .subError h => onError h s
  | .unsubError h => unsubscribeError h s
  | .subStatus h => onStatusChange h s
  | .unsubStatus h => unsubscribeStatusChange h s

/-- The state after a sequence of events from a fresh service. -/
def run (es : List WSEvent) : WebSocketService :=
  es.foldl (fun s e => step e s) initService

/-- States reachable from a fresh service. -/
inductive Reachable : WebSocketService → Prop
  | init : Reachable initService
  | next : ∀ {s : WebSocketService} (e : WSEvent), Reachable s → Reachable (step e s)

/-- `step` on a `send` call, written as a single conditional. -/
theorem step_sendCall (m : WebSocketMessage) (s : WebSocketService) :
    step (.sendCall m) s =
      if s.socket = some ReadyState.OPEN then { s with sent := s.sent ++ [m] }
      else s := by
  show (match send s m with | Except.ok s' => s' | Except.error _ => s) = _
  by_cases hs : s.socket = some ReadyState.OPEN <;> simp [send, hs]

/-! ## Helper lemmas about `setStatus` -/

@[simp]
theorem setStatus_socket (s : WebSocketService) (st : WebSocketStatus) :
    (setStatus s st).socket = s.socket := by
  unfold setStatus; split <;> rfl

@[simp]
theorem setStatus_status (s : WebSocketService) (st : WebSocketStatus) :
    (setStatus s st).status = st := by
  unfold setStatus; split
  · rfl
  · rename_i h; exact not_not.mp h

@[simp]
theorem setStatus_reconnectAttempts (s : WebSocketService) (st : WebSocketStatus) :
    (setStatus s st).reconnectAttempts = s.reconnectAttempts := by
  unfold setStatus; split <;> rfl

@[simp]
theorem setStatus_pendingReconnects (s : WebSocketService) (st : WebSocketStatus) :
    (setStatus s st).pendingReconnects = s.pendingReconnects := by
  unfold setStatus; split <;> rfl

@[simp]
theorem setStatus_socketsCreated (s : WebSocketService) (st : WebSocketStatus) :
    (setStatus s st).socketsCreated = s.socketsCreated := by
  unfold setStatus; split <;> rfl

@[simp]
theorem setStatus_messageHandlers (s : WebSocketService) (st : WebSocketStatus) :
    (setStatus s st).messageHandlers = s.messageHandlers := by
  unfold setStatus; split <;> rfl

@[simp]
theorem setStatus_errorHandlers (s : WebSocketService) (st : WebSocketStatus) :
    (setStatus s st).errorHandlers = s.errorHandlers := by
  unfold setStatus; split <;> rfl

@[simp]
theorem setStatus_statusChangeHandlers (s : WebSocketService) (st : WebSocketStatus) :
    (setStatus s st).statusChangeHandlers = s.statusChangeHandlers := by
  unfold setStatus; split <;> rfl

@[simp]
theorem setStatus_timeoutArmed (s : WebSocketService) (st : WebSocketStatus) :
    (setStatus s st).timeoutArmed = s.timeoutArmed := by
  unfold setStatus; split <;> rfl

/-! ## The status/socket invariant

On every reachable state, the public `status` field reads `connected`
exactly when the underlying socket is in the `OPEN` ready state. This is the
bridge between `send`'s actual guard (`readyState === OPEN`) and the spec's
phrasing ("transmits only if status is connected"). -/

/-- `status = connected` exactly when the socket is `OPEN`. -/
def connInv (s : WebSocketService) : Prop :=
  s.status = .connected ↔ s.socket = some .OPEN

theorem connInv_init : connInv initService := by
  unfold connInv initService; simp

theorem connInv_connect (b : Bool) (s : WebSocketService) (h : connInv s) :
    connInv (connect b s) := by
  unfold connect
  split
  · exact h
  · split
    · exact h
    · rename_i hOpen _
      split
      · unfold connInv; simp
      · unfold connInv; simp [hOpen]

theorem connInv_disconnect (s : WebSocketService) :
    connInv (disconnect s) := by
  unfold disconnect connInv
  simp

theorem connInv_openEv (s : WebSocketService) (h : connInv s) :
    connInv (openEv s) := by
  unfold openEv
  split
  · unfold connInv; simp
  · exact h

theorem connInv_messageEv (p : Option WebSocketMessage) (s : WebSocketService)
    (h : connInv s) : connInv (messageEv p s) := by
  unfold messageEv
  split
  · split <;> exact h
  · exact h

theorem connInv_errorEv (s : WebSocketService) (h : connInv s) :
    connInv (errorEv s) := by
  unfold errorEv
  split
  · unfold connInv; simp
  · exact h

theorem connInv_closeEv (code : Nat) (s : WebSocketService) (h : connInv s) :
    connInv (closeEv code s) := by
  cases hsock : s.socket with
  | none => simp only [closeEv, hsock]; exact h
  | some rs =>
    simp only [closeEv, attemptReconnect, hsock]
    split_ifs <;> (unfold connInv; simp)

theorem connInv_timeoutFire (s : WebSocketService) (h : connInv s) :
    connInv (timeoutFire s) := by
  unfold timeoutFire
  split
  · split
    · split
      · unfold connInv; simp
      · exact h
    · exact h
  · exact h

theorem connInv_reconnectFire (s : WebSocketService) (h : connInv s) :
    connInv (reconnectFire s) := by
  cases hp : s.pendingReconnects with
  | nil => simp only [reconnectFire, hp]; exact h
  | cons d rest =>
    simp only [reconnectFire, hp]
    split
    · exact connInv_connect true _ h
    · exact h

theorem connInv_step (e : WSEvent) (s : WebSocketService) (h : connInv s) :
    connInv (step e s) := by
  cases e with
  | connectCall b => exact connInv_connect b s h
  | disconnectCall => exact connInv_disconnect s
  | sendCall m =>
    rw [step_sendCall]
    split
    · exact h
    · exact h
  | opened => exact connInv_openEv s h
  | message p => exact connInv_messageEv p s h
  | errored => exact connInv_errorEv s h
  | closed code => exact connInv_closeEv code s h
  | timeout => exact connInv_timeoutFire s h
  | reconnectTimer => exact connInv_reconnectFire s h
  | subMessage hid => exact h
  | unsubMessage hid => exact h
  | subError hid => exact h
  | unsubError hid => exact h
  | subStatus hid => exact h
  | unsubStatus hid => exact h

theorem connInv_reachable {s : WebSocketService} (h : Reachable s) : connInv s := by
  induction h with
  | init => exact connInv_init
  | next e _ ih => exact connInv_step e _ ih

/-! ## The status-trace invariant

Every status mutation in the source goes through `setStatus`, which notifies
only on an actual change. Hence the sequence of emitted status
notifications never contains the same value twice in a row, and its last
element (when any) is the currently stored status. -/

/-- The emitted status notifications form a chain of pairwise-distinct
neighbours whose last element is the current status. -/
def traceInv (s : WebSocketService) : Prop :=
  s.statusTrace.Chain' (fun a b => a ≠ b) ∧
  (s.statusTrace ≠ [] → s.statusTrace.getLast? = some s.status)

theorem traceInv_init : traceInv initService := by
  unfold traceInv initService; simp

theorem traceInv_setStatus (s : WebSocketService) (st : WebSocketStatus)
    (h : traceInv s) : traceInv (setStatus s st) := by
  unfold setStatus
  split
  · rename_i hne
    constructor
    · show (s.statusTrace ++ [st]).Chain' (fun a b => a ≠ b)
      rw [List.chain'_append]
      refine ⟨h.1, List.chain'_singleton st, ?_⟩
      intro x hx y hy
      have hnil : s.statusTrace ≠ [] := by
        intro he; rw [he] at hx; simp at hx
      have h2 := h.2 hnil
      rw [h2] at hx
      simp only [Option.mem_def, Option.some.injEq, List.head?_cons] at hx hy
      rw [← hx, ← hy]
      exact hne
    · intro _
      show (s.statusTrace ++ [st]).getLast? = some st
      exact List.getLast?_concat _
  · exact h

theorem traceInv_connect (b : Bool) (s : WebSocketService) (h : traceInv s) :
    traceInv (connect b s) := by
  unfold connect
  split
  · exact h
  · split
    · exact h
    · split
      · exact traceInv_setStatus s .connecting h
      · exact traceInv_setStatus _ .error (traceInv_setStatus s .connecting h)

theorem traceInv_disconnect (s : WebSocketService) (h : traceInv s) :
    traceInv (disconnect s) := by
  unfold disconnect
  exact traceInv_setStatus _ .disconnected h

theorem traceInv_openEv (s : WebSocketService) (h : traceInv s) :
    traceInv (openEv s) := by
  unfold openEv
  split
  · exact traceInv_setStatus _ .connected h
  · exact h

theorem traceInv_messageEv (p : Option WebSocketMessage) (s : WebSocketService)
    (h : traceInv s) : traceInv (messageEv p s) := by
  unfold messageEv
  split
  · split <;> exact h
  · exact h

theorem traceInv_errorEv (s : WebSocketService) (h : traceInv s) :
    traceInv (errorEv s) := by
  unfold errorEv
  split
  · exact traceInv_setStatus _ .error h
  · exact h

theorem traceInv_closeEv (code : Nat) (s : WebSocketService) (h : traceInv s) :
    traceInv (closeEv code s) := by
  cases hsock : s.socket with
  | none => simp only [closeEv, hsock]; exact h
  | some rs =>
    simp only [closeEv, attemptReconnect, hsock]
    split_ifs <;> exact traceInv_setStatus _ .disconnected h

theorem traceInv_timeoutFire (s : WebSocketService) (h : traceInv s) :
    traceInv (timeoutFire s) := by
  unfold timeoutFire
  split
  · split
    · split
      · exact traceInv_setStatus _ .disconnected h
      · exact h
    · exact h
  · exact h

theorem traceInv_reconnectFire (s : WebSocketService) (h : traceInv s) :
    traceInv (reconnectFire s) := by
  cases hp : s.pendingReconnects with
  | nil => simp only [reconnectFire, hp]; exact h
  | cons d rest =>
    simp only [reconnectFire, hp]
    split
    · exact traceInv_connect true _ h
    · exact h

theorem traceInv_step (e : WSEvent) (s : WebSocketService) (h : traceInv s) :
    traceInv (step e s) := by
  cases e with
  | connectCall b => exact traceInv_connect b s h
  | disconnectCall => exact traceInv_disconnect s h
  | sendCall m =>
    rw [step_sendCall]
    split
    · exact h
    · exact h
  | opened => exact traceInv_openEv s h
  | message p => exact traceInv_messageEv p s h
  | errored => exact traceInv_errorEv s h
  | closed code => exact traceInv_closeEv code s h
  | timeout => exact traceInv_timeoutFire s h
  | reconnectTimer => exact traceInv_reconnectFire s h
  | subMessage hid => exact h
  | unsubMessage hid => exact h
  | subError hid => exact h
  | unsubError hid => exact h
  | subStatus hid => exact h
  | unsubStatus hid => exact h

theorem traceInv_reachable {s : WebSocketService} (h : Reachable s) : traceInv s := by
  induction h with
  | init => exact traceInv_init
  | next e _ ih => exact traceInv_step e _ ih

/-! ## Quiescence after the retry budget is exhausted

Once the retry counter sits at the bound, no reconnect timer is pending and
the socket is not mid-handshake, no event other than a manual `connect()`
call can ever construct a new transport or schedule a reconnect. -/

/-- Is this event a manual `connect()` call? -/
def isConnectCall : WSEvent → Bool
  | .connectCall _ => true
  | _ => false

/-- Exhausted retry budget, no pending reconnect timer, no handshake in
flight. -/
def quiescent (s : WebSocketService) : Prop :=
  s.reconnectAttempts = maxReconnectAttempts ∧
  s.pendingReconnects = [] ∧
  s.socket ≠ some ReadyState.CONNECTING

theorem quiescent_step (e : WSEvent) (s : WebSocketService)
    (hq : quiescent s) (he : isConnectCall e = false) :
    quiescent (step e s) ∧ (step e s).socketsCreated = s.socketsCreated := by
  obtain ⟨h1, h2, h3⟩ := hq
  cases e with
  | connectCall b => simp [isConnectCall] at he
  | disconnectCall =>
    show quiescent (disconnect s) ∧ (disconnect s).socketsCreated = s.socketsCreated
    unfold disconnect
    refine ⟨⟨?_, ?_, ?_⟩, ?_⟩ <;> simp [h2]
  | sendCall m =>
    rw [step_sendCall]
    split
    · exact ⟨⟨h1, h2, h3⟩, rfl⟩
    · exact ⟨⟨h1, h2, h3⟩, rfl⟩
  | opened =>
    show quiescent (openEv s) ∧ (openEv s).socketsCreated = s.socketsCreated
    unfold openEv
    rw [if_neg h3]
    exact ⟨⟨h1, h2, h3⟩, rfl⟩
  | message p =>
    show quiescent (messageEv p s) ∧ (messageEv p s).socketsCreated = s.socketsCreated
    unfold messageEv
    split
    · split <;> exact ⟨⟨h1, h2, h3⟩, rfl⟩
    · exact ⟨⟨h1, h2, h3⟩, rfl⟩
  | errored =>
    show quiescent (errorEv s) ∧ (errorEv s).socketsCreated = s.socketsCreated
    unfold errorEv
    split
    · refine ⟨⟨?_, ?_, ?_⟩, ?_⟩ <;> simp_all
    · exact ⟨⟨h1, h2, h3⟩, rfl⟩
  | closed code =>
    show quiescent (closeEv code s) ∧ (closeEv code s).socketsCreated = s.socketsCreated
    cases hsock : s.socket with
    | none =>
      have hred : closeEv code s = s := by
        simp only [closeEv, hsock]
      rw [hred]
      exact ⟨⟨h1, h2, h3⟩, rfl⟩
    | some rs =>
      have hnot : ¬(code ≠ 1006 ∧ code ≠ 1002 ∧
          s.reconnectAttempts < maxReconnectAttempts) := by
        intro hc
        rw [h1] at hc
        exact absurd hc.2.2 (lt_irrefl _)
      simp only [closeEv, hsock]
      rw [if_neg hnot]
      refine ⟨⟨?_, ?_, ?_⟩, ?_⟩ <;> simp [h2]
  | timeout =>
    show quiescent (timeoutFire s) ∧ (timeoutFire s).socketsCreated = s.socketsCreated
    unfold timeoutFire
    split
    · split
      · split
        · refine ⟨⟨?_, ?_, ?_⟩, ?_⟩ <;> simp_all
        · exact ⟨⟨h1, h2, h3⟩, rfl⟩
      · exact ⟨⟨h1, h2, h3⟩, rfl⟩
    · exact ⟨⟨h1, h2, h3⟩, rfl⟩
  | reconnectTimer =>
    show quiescent (reconnectFire s) ∧ (reconnectFire s).socketsCreated = s.socketsCreated
    have hred : reconnectFire s = s := by
      simp only [reconnectFire, h2]
    rw [hred]
    exact ⟨⟨h1, h2, h3⟩, rfl⟩
  | subMessage hid => exact ⟨⟨h1, h2, h3⟩, rfl⟩
  | unsubMessage hid => exact ⟨⟨h1, h2, h3⟩, rfl⟩
  | subError hid => exact ⟨⟨h1, h2, h3⟩, rfl⟩
  | unsubError hid => exact ⟨⟨h1, h2, h3⟩, rfl⟩
  | subStatus hid => exact ⟨⟨h1, h2, h3⟩, rfl⟩
  | unsubStatus hid => exact ⟨⟨h1, h2, h3⟩, rfl⟩

theorem quiescent_foldl (es : List WSEvent) (s : WebSocketService)
    (hq : quiescent s) (hes : ∀ e ∈ es, isConnectCall e = false) :
    quiescent (es.foldl (fun t e => step e t) s) ∧
    (es.foldl (fun t e => step e t) s).socketsCreated = s.socketsCreated := by
  induction es generalizing s with
  | nil => exact ⟨hq, rfl⟩
  | cons e es ih =>
    have he : isConnectCall e = false := hes e (List.mem_cons_self e es)
    have hstep := quiescent_step e s hq he
    have ihh := ih (step e s) hstep.1 (fun e' h' => hes e' (List.mem_cons_of_mem e h'))
    exact ⟨ihh.1, ihh.2.trans hstep.2⟩

/-- The retry decision of the `onclose` handler, in both directions:
schedule exactly one timer (with the linear-backoff delay) when the code is
outside {1006, 1002} and budget remains, otherwise schedule nothing and
force the counter to the bound. Shared backbone of the close-event claims. -/
theorem closeEv_retry_spec (s : WebSocketService) (code : Nat) (rs : ReadyState)
    (hrs : s.socket = some rs) :
    (code ≠ 1006 ∧ code ≠ 1002 ∧ s.reconnectAttempts < maxReconnectAttempts →
      (closeEv code s).pendingReconnects =
        s.pendingReconnects ++ [reconnectDelay * (s.reconnectAttempts + 1)] ∧
      (closeEv code s).reconnectAttempts = s.reconnectAttempts + 1) ∧
    (¬(code ≠ 1006 ∧ code ≠ 1002 ∧
        s.reconnectAttempts < maxReconnectAttempts) →
      (closeEv code s).pendingReconnects = s.pendingReconnects ∧
      (closeEv code s).reconnectAttempts = maxReconnectAttempts) := by
  constructor
  · intro hc
    have hlt : ¬(s.reconnectAttempts ≥ maxReconnectAttempts) :=
      Nat.not_le.mpr hc.2.2
    simp only [closeEv, hrs]
    rw [if_pos hc]
    unfold attemptReconnect
    simp only [setStatus_reconnectAttempts, setStatus_pendingReconnects]
    rw [if_neg hlt]
    exact ⟨rfl, rfl⟩
  · intro hc
    simp only [closeEv, hrs]
    rw [if_neg hc]
    simp

/-! ## Claims -/

/-- C1 (corrected). On a close event, a reconnect is scheduled if and only
if the closure code is neither 1006 (abnormal/refused) nor 1002 (protocol
error) and the retry counter is below the bound of 5; otherwise nothing is
scheduled and the counter is forced to the bound. In particular the denylist
does **not** contain the normal-closure code 1000: a normal closure is
treated as retryable by the code. -/
theorem c1_close_retry_denylist (s : WebSocketService) (code : Nat)
    (hsock : s.socket.isSome) :
    (code ≠ 1006 ∧ code ≠ 1002 ∧ s.reconnectAttempts < maxReconnectAttempts →
      (closeEv code s).pendingReconnects =
        s.pendingReconnects ++ [reconnectDelay * (s.reconnectAttempts + 1)] ∧
      (closeEv code s).reconnectAttempts = s.reconnectAttempts + 1) ∧
    (¬(code ≠ 1006 ∧ code ≠ 1002 ∧
        s.reconnectAttempts < maxReconnectAttempts) →
      (closeEv code s).pendingReconnects = s.pendingReconnects ∧
      (closeEv code s).reconnectAttempts = maxReconnectAttempts) := by
  obtain ⟨rs, hrs⟩ := Option.isSome_iff_exists.mp hsock
  exact closeEv_retry_spec s code rs hrs

/-- Witness for C1 at a concrete reachable state: after a fresh connect and
open (counter 0, nothing pending), a close with retryable code 1011
schedules one reconnect of delay 1000 ms and bumps the counter to 1. -/
theorem c1_close_retry_denylist_witness :
    (closeEv 1011 (run [.connectCall true, .opened])).pendingReconnects = [1000] ∧
    (closeEv 1011 (run [.connectCall true, .opened])).reconnectAttempts = 1 := by
  have h := (c1_close_retry_denylist (run [.connectCall true, .opened]) 1011
    (by decide)).1 (by decide)
  exact ⟨by rw [h.1]; decide, by rw [h.2]; decide⟩

/-- Counterexample to C1 as stated: a *normal* closure (code 1000) after a
successful open does schedule a reconnect (pending delay 1000 ms, counter
bumped to 1), whereas the claim demands that a normal closure schedules
nothing and forces the counter to the bound 5. -/
theorem c1_normal_closure_retried :
    (run [.connectCall true, .opened, .closed 1000]).pendingReconnects = [1000] ∧
    (run [.connectCall true, .opened, .closed 1000]).reconnectAttempts = 1 := by
  decide

/-- C2 (corrected). The unsubscribe closure returned by
`onMessage`/`onError`/`onStatusChange` removes **every** registration equal
to that handler function (a `filter` by reference inequality), not exactly
one: a handler distinct from the unsubscribed one keeps its registrations
and keeps receiving notifications, but when the same handler function is
subscribed twice, a single unsubscribe call removes both registrations. -/
theorem c2_unsubscribe_removes_all_instances (s : WebSocketService)
    (h h' : HandlerId) :
    (unsubscribeMessage h s).messageHandlers =
      s.messageHandlers.filter (fun x => x ≠ h) ∧
    (unsubscribeError h s).errorHandlers =
      s.errorHandlers.filter (fun x => x ≠ h) ∧
    (unsubscribeStatusChange h s).statusChangeHandlers =
      s.statusChangeHandlers.filter (fun x => x ≠ h) ∧
    h ∉ (unsubscribeStatusChange h s).statusChangeHandlers ∧
    (h' ≠ h →
      ((h' ∈ (unsubscribeMessage h s).messageHandlers) ↔
        h' ∈ s.messageHandlers)) ∧
    (h' ≠ h →
      ((h' ∈ (unsubscribeStatusChange h s).statusChangeHandlers) ↔
        h' ∈ s.statusChangeHandlers)) := by
  refine ⟨rfl, rfl, rfl, ?_, ?_, ?_⟩
  · simp [unsubscribeStatusChange, List.mem_filter]
  · intro hne
    simp [unsubscribeMessage, List.mem_filter, hne]
  · intro hne
    simp [unsubscribeStatusChange, List.mem_filter, hne]

/-- Witness for C2 at a concrete input: with message handlers `[3, 5, 3]`,
unsubscribing 3 leaves `[5]`, and handler 5 is still registered. -/
theorem c2_unsubscribe_removes_all_instances_witness :
    (unsubscribeMessage 3
      { initService with messageHandlers := [3, 5, 3] }).messageHandlers = [5] ∧
    ((5 : HandlerId) ∈ (unsubscribeMessage 3
      { initService with messageHandlers := [3, 5, 3] }).messageHandlers ↔
      (5 : HandlerId) ∈ ([3, 5, 3] : List HandlerId)) := by
  have h := c2_unsubscribe_removes_all_instances
    { initService with messageHandlers := [3, 5, 3] } 3 5
  exact ⟨by rw [h.1]; decide, h.2.2.2.2.1 (by decide)⟩

/-- Counterexample to C2 as stated: subscribe the same handler function
(identifier 3) twice on a connected channel, then call **one** of the two
unsubscribe closures once. Both registrations disappear, and a subsequent
inbound message is delivered to nobody — the claim demands that the other
registration still receive it. -/
theorem c2_double_subscription_lost :
    (onMessage 3 (onMessage 3 (run [.connectCall true, .opened]))).messageHandlers
      = [3, 3] ∧
    (unsubscribeMessage 3
      (onMessage 3 (onMessage 3 (run [.connectCall true, .opened])))).messageHandlers
      = [] ∧
    (messageEv (some { type := "add" }) (unsubscribeMessage 3
      (onMessage 3 (onMessage 3 (run [.connectCall true, .opened]))))).deliveredMessages
      = [] := by
  decide

/-- C3 (confirmed). A retryable abnormal closure (code outside
{1000, 1006, 1002}) with budget left schedules exactly one reconnect timer,
whose delay is the base delay (1000 ms) times the attempt number after the
increment — attempt 1 fires after 1000 ms, attempt 2 after 2000 ms, linear
not exponential; once the counter has reached the bound 5 nothing further
is scheduled; and a scheduled timer that fires runs `connect()` only if the
status is still `disconnected`, otherwise it only consumes the timer. -/
theorem c3_linear_backoff_and_guarded_fire (s t : WebSocketService) (code : Nat)
    (hsock : s.socket.isSome) :
    (code ≠ 1000 → code ≠ 1006 → code ≠ 1002 →
      s.reconnectAttempts < maxReconnectAttempts →
      (closeEv code s).pendingReconnects =
        s.pendingReconnects ++ [reconnectDelay * (s.reconnectAttempts + 1)] ∧
      (closeEv code s).reconnectAttempts = s.reconnectAttempts + 1) ∧
    (maxReconnectAttempts ≤ s.reconnectAttempts →
      (closeEv code s).pendingReconnects = s.pendingReconnects) ∧
    (t.status = .disconnected → ∀ d rest, t.pendingReconnects = d :: rest →
      reconnectFire t = connect true { t with pendingReconnects := rest }) ∧
    (t.status ≠ .disconnected → ∀ d rest, t.pendingReconnects = d :: rest →
      reconnectFire t = { t with pendingReconnects := rest }) := by
  obtain ⟨rs, hrs⟩ := Option.isSome_iff_exists.mp hsock
  refine ⟨?_, ?_, ?_, ?_⟩
  · intro _ h6 h2 hlt
    exact (closeEv_retry_spec s code rs hrs).1 ⟨h6, h2, hlt⟩
  · intro hge
    have hnot : ¬(code ≠ 1006 ∧ code ≠ 1002 ∧
        s.reconnectAttempts < maxReconnectAttempts) := by
      intro hc
      exact absurd hc.2.2 (Nat.not_lt.mpr hge)
    exact ((closeEv_retry_spec s code rs hrs).2 hnot).1
  · intro ht d rest hp
    simp [reconnectFire, hp, ht]
  · intro ht d rest hp
    simp [reconnectFire, hp, ht]

/-- Witness for C3: from the state after connect–open–close(1011) (counter
1, one timer pending, status disconnected), the timer firing runs
`connect()` again; and at the bound the counter schedules nothing. -/
theorem c3_linear_backoff_and_guarded_fire_witness :
    reconnectFire (run [.connectCall true, .opened, .closed 1011]) =
      connect true { run [.connectCall true, .opened, .closed 1011] with
        pendingReconnects := [] } ∧
    (closeEv 1011 (run [.connectCall true, .timeout])).pendingReconnects = [] := by
  have h := c3_linear_backoff_and_guarded_fire
    (run [.connectCall true, .timeout])
    (run [.connectCall true, .opened, .closed 1011]) 1011 (by decide)
  refine ⟨h.2.2.1 (by decide) 1000 [] (by decide), ?_⟩
  rw [h.2.1 (by decide)]
  decide

/-- C4 (confirmed). When the 5-second connection timeout fires while the
transport has not reached `OPEN`, the channel forcibly closes the transport
(readyState moves to `CLOSING`), sets status to `disconnected` and forces
the retry counter to its bound; in the end-to-end run
construct → `connect()` → timeout, the channel is disconnected with
counter 5, and across any further sequence of transport events and timer
firings (anything but a manual `connect()` call) no new transport is ever
constructed and no reconnect timer is ever pending. -/
theorem c4_connection_timeout_terminal (es : List WSEvent)
    (hes : ∀ e ∈ es, isConnectCall e = false) :
    (∀ t : WebSocketService, t.timeoutArmed = true → t.socket.isSome →
      t.socket ≠ some ReadyState.OPEN →
      (timeoutFire t).socket = some ReadyState.CLOSING ∧
      (timeoutFire t).status = .disconnected ∧
      (timeoutFire t).reconnectAttempts = maxReconnectAttempts) ∧
    (run [.connectCall true, .timeout]).status = .disconnected ∧
    (run [.connectCall true, .timeout]).reconnectAttempts = maxReconnectAttempts ∧
    (es.foldl (fun t e => step e t)
      (run [.connectCall true, .timeout])).socketsCreated = 1 ∧
    (es.foldl (fun t e => step e t)
      (run [.connectCall true, .timeout])).pendingReconnects = [] := by
  have hq : quiescent (run [.connectCall true, .timeout]) :=
    ⟨by decide, by decide, by decide⟩
  have hf := quiescent_foldl es (run [.connectCall true, .timeout]) hq hes
  refine ⟨?_, by decide, by decide, hf.2.trans (by decide), hf.1.2.1⟩
  intro t h1 h2 h3
  obtain ⟨rs, hrs⟩ := Option.isSome_iff_exists.mp h2
  have hrsne : rs ≠ ReadyState.OPEN := by
    intro he
    rw [he] at hrs
    exact h3 hrs
  refine ⟨?_, ?_, ?_⟩ <;> simp [timeoutFire, h1, hrs, hrsne]

/-- Witness for C4: after the timed-out connect, a further close event, a
reconnect-timer tick, another timeout tick and a transport error leave the
channel with its single original transport and an empty reconnect queue. -/
theorem c4_connection_timeout_terminal_witness :
    (([.closed 1006, .reconnectTimer, .timeout, .errored] : List WSEvent).foldl
      (fun t e => step e t) (run [.connectCall true, .timeout])).socketsCreated = 1 ∧
    (([.closed 1006, .reconnectTimer, .timeout, .errored] : List WSEvent).foldl
      (fun t e => step e t) (run [.connectCall true, .timeout])).pendingReconnects
      = [] := by
  have h := c4_connection_timeout_terminal
    [.closed 1006, .reconnectTimer, .timeout, .errored] (by decide)
  exact ⟨h.2.2.2.1, h.2.2.2.2⟩

/-- C5 (confirmed). On every reachable state, `send` serializes the message
and writes it to the transport exactly when the channel's status is
`connected` (via the invariant that `status = connected` coincides with the
socket being `OPEN`); in every other state — the fresh never-connected
channel included — it fails synchronously with the "not connected" error
and writes nothing. -/
theorem c5_send_only_when_connected (s : WebSocketService) (hr : Reachable s)
    (m : WebSocketMessage) :
    (s.status = .connected → send s m = .ok { s with sent := s.sent ++ [m] }) ∧
    (s.status ≠ .connected →
      send s m = .error "WebSocket is not connected") := by
  have hinv := connInv_reachable hr
  constructor
  · intro hc
    unfold send
    rw [if_pos (hinv.mp hc)]
  · intro hc
    unfold send
    rw [if_neg (fun hh => hc (hinv.mpr hh))]

/-- Witness for C5: a freshly constructed channel (reachable by
`Reachable.init`, status `disconnected`) rejects `send` with the
"not connected" error. -/
theorem c5_send_only_when_connected_witness :
    send initService { type := "health" } =
      .error "WebSocket is not connected" :=
  (c5_send_only_when_connected initService Reachable.init
    { type := "health" }).2 (by decide)

/-- C6 (confirmed). `connect()` is a strict no-op whenever the socket is
already `OPEN` or `CONNECTING` (identical state, hence no second transport
and unchanged status), and two `connect()` calls in a row from a fresh
channel construct exactly one transport instance. -/
theorem c6_connect_idempotent (s : WebSocketService) (b : Bool)
    (h : s.socket = some ReadyState.OPEN ∨
      s.socket = some ReadyState.CONNECTING) :
    connect b s = s ∧
    connect true (connect true initService) = connect true initService ∧
    (connect true initService).socketsCreated = 1 := by
  refine ⟨?_, by decide, by decide⟩
  rcases h with h | h <;> simp [connect, h]

/-- Witness for C6: the second of two consecutive `connect()` calls on a
fresh channel (socket `CONNECTING`) leaves the state untouched. -/
theorem c6_connect_idempotent_witness :
    connect true (run [.connectCall true]) = run [.connectCall true] :=
  (c6_connect_idempotent (run [.connectCall true]) true (Or.inr (by decide))).1

/-- C7 (confirmed). A successful transport open cancels the connection
timeout, sets status to `connected` and resets the retry counter to zero;
afterwards `getStatus()` returns `connected` and `isConnected()` returns
`true`. -/
theorem c7_open_resets_state (s : WebSocketService)
    (h : s.socket = some ReadyState.CONNECTING) :
    (openEv s).timeoutArmed = false ∧
    (openEv s).status = .connected ∧
    (openEv s).reconnectAttempts = 0 ∧
    getStatus (openEv s) = .connected ∧
    isConnected (openEv s) = true := by
  refine ⟨?_, ?_, ?_, ?_, ?_⟩ <;> simp [openEv, getStatus, isConnected, h]

/-- Witness for C7 on the concrete run construct → `connect()` → open. -/
theorem c7_open_resets_state_witness :
    (openEv (run [.connectCall true])).timeoutArmed = false ∧
    (openEv (run [.connectCall true])).status = .connected ∧
    (openEv (run [.connectCall true])).reconnectAttempts = 0 ∧
    getStatus (openEv (run [.connectCall true])) = .connected ∧
    isConnected (openEv (run [.connectCall true])) = true :=
  c7_open_resets_state (run [.connectCall true]) (by decide)

/-- C8 (code bug). `disconnect()` does set the retry counter to its bound —
but that does **not** keep a pending reconnect from firing, contrary to the
claim and to the source's own `// Prevent reconnection` comment: the
scheduled callback fires exactly when `status === 'disconnected'`, which is
precisely the status `disconnect()` leaves behind. Concretely: after
connect → open → abnormal close 1011 (one timer pending), a `disconnect()`
leaves the timer pending, and its firing calls `connect()` and constructs a
second transport on a channel the caller had explicitly torn down. -/
theorem c8_disconnect_leaves_pending_reconnect :
    (run [.connectCall true, .opened, .closed 1011,
      .disconnectCall]).reconnectAttempts = maxReconnectAttempts ∧
    (run [.connectCall true, .opened, .closed 1011,
      .disconnectCall]).status = .disconnected ∧
    (run [.connectCall true, .opened, .closed 1011,
      .disconnectCall]).socket = none ∧
    (run [.connectCall true, .opened, .closed 1011,
      .disconnectCall]).pendingReconnects = [1000] ∧
    (run [.connectCall true, .opened, .closed 1011, .disconnectCall,
      .reconnectTimer]).socketsCreated = 2 ∧
    (run [.connectCall true, .opened, .closed 1011, .disconnectCall,
      .reconnectTimer]).status = .connecting := by
  decide

/-- C9 (confirmed). On an open socket, an inbound payload that fails to
parse only increments the console-error log: the resulting state is
literally the old state with `logs + 1`, so status, retry counter, observer
lists, transmitted messages and both delivery logs are untouched and no
observer is invoked; a successfully parsed message is appended, unmodified,
to the delivery log once per registered message observer, in registration
order. -/
theorem c9_parse_failure_contained (s : WebSocketService)
    (m : WebSocketMessage) (h : s.socket = some ReadyState.OPEN) :
    messageEv none s = { s with logs := s.logs + 1 } ∧
    messageEv (some m) s =
      { s with deliveredMessages :=
          s.deliveredMessages ++ s.messageHandlers.map (fun x => (x, m)) } := by
  constructor <;> simp [messageEv, h]

/-- Witness for C9: on a connected channel with observers 1 and 2, the
message add/result-8 is delivered to both, and a malformed payload only
logs. -/
theorem c9_parse_failure_contained_witness :
    messageEv none (onMessage 2 (onMessage 1 (run [.connectCall true, .opened])))
      = { onMessage 2 (onMessage 1 (run [.connectCall true, .opened])) with
          logs := (onMessage 2 (onMessage 1
            (run [.connectCall true, .opened]))).logs + 1 } ∧
    messageEv (some { type := "add", data := some "result 8" })
        (onMessage 2 (onMessage 1 (run [.connectCall true, .opened])))
      = { onMessage 2 (onMessage 1 (run [.connectCall true, .opened])) with
          deliveredMessages :=
            [(1, { type := "add", data := some "result 8" }),
             (2, { type := "add", data := some "result 8" })] } := by
  have h := c9_parse_failure_contained
    (onMessage 2 (onMessage 1 (run [.connectCall true, .opened])))
    { type := "add", data := some "result 8" } (by decide)
  exact ⟨h.1, by rw [h.2]; decide⟩

/-- C10 (corrected). `setStatus` with the value the channel already holds
is a strict no-op (nobody is notified), and on every reachable state the
channel's emitted status-notification sequence never contains the same
status twice in a row — so an observer subscribed for the whole run never
sees a duplicate, and the connect-then-open run delivers exactly
`connecting, connected` to its observer. The per-observer universal claim
fails only for observers that unsubscribe and resubscribe across
transitions. -/
theorem c10_status_notifications_deduplicated (s : WebSocketService)
    (hr : Reachable s) :
    (∀ t : WebSocketService, setStatus t t.status = t) ∧
    s.statusTrace.Chain' (fun a b => a ≠ b) ∧
    (run [.subStatus 0, .connectCall true, .opened]).deliveredStatuses =
      [(0, .connecting), (0, .connected)] := by
  refine ⟨?_, (traceInv_reachable hr).1, by decide⟩
  intro t
  unfold setStatus
  rw [if_neg (not_not_intro rfl)]

/-- Witness for C10 at the concrete reachable state reached by
construct → subscribe → `connect()` → open. -/
theorem c10_status_notifications_deduplicated_witness :
    (run [.subStatus 0, .connectCall true, .opened]).statusTrace.Chain'
      (fun a b => a ≠ b) ∧
    (run [.subStatus 0, .connectCall true, .opened]).deliveredStatuses =
      [(0, .connecting), (0, .connected)] := by
  have h := c10_status_notifications_deduplicated
    (run [.subStatus 0, .connectCall true, .opened])
    (Reachable.next .opened (Reachable.next (.connectCall true)
      (Reachable.next (.subStatus 0) Reachable.init)))
  exact ⟨h.2.1, h.2.2⟩

/-- Counterexample to C10 as stated: observer 7 subscribes, sees
`connecting`, unsubscribes, misses `connected` and `disconnected`,
resubscribes, and on the next `connect()` receives `connecting` again — the
same status twice in a row, which the claim rules out for every observer. -/
theorem c10_resubscribed_observer_sees_duplicate :
    (run [.subStatus 7, .connectCall true, .unsubStatus 7, .opened,
      .closed 1000, .subStatus 7, .connectCall true]).deliveredStatuses =
      [(7, .connecting), (7, .connecting)] := by
  decide

end WS
